import Mathlib

/-
Verification of the Seance message-proxy bridge (Python sources under
src/seance/) against its natural-language specification.

The embedding below translates the relevant Python functions into Lean:
the SQLite-backed correlation cache of
src/seance/discord_bot/dm_mode.py (`_cache_message_id_mappings`,
`_retrieve_message_id_mapping_for`), the Telegram entity-shift logic of
src/seance/telegram_bot.py (`on_message`, `proxy`), and the Discord
target resolver / content classifier of src/seance/discord_bot/__init__.py
(`_get_target_message_and_args`, `_matches_simple_react`,
`_matches_custom_react`, `_handle_content`).

Machine integers are modelled as Int/Nat (Python ints are unbounded, so no
wrap-around modelling is needed); Python exceptions are modelled with
Except; external I/O (Discord fetches) is modelled by Option-valued
oracles passed in explicitly.
-/

/- ---------------------------------------------------------------------
Correlation cache (src/seance/discord_bot/dm_mode.py).

The SQLite table `msg_id_mappings` has columns
(entry_id INTEGER PRIMARY KEY, dm_id, server_id, insertion_date).
`insertion_date` is stored as unix seconds: a `datetime` parameter is
converted by the registered adapter `datetime_to_unixtime`.  We carry
timestamps directly as unix seconds (Int).
--------------------------------------------------------------------- -/

/-- One row of the `msg_id_mappings` table. -/
structure MappingRow where
  entry_id : Nat
  dm_id : Int
  server_id : Int
  insertion_date : Int
deriving DecidableEq

/-- The `msg_id_mappings` table plus the auto-increment state of its
INTEGER PRIMARY KEY column. -/
structure MsgDb where
  rows : List MappingRow
  next_entry_id : Nat
deriving DecidableEq

/-- Embeds `DiscordDMGuildManager._cache_message_id_mappings`
(dm_mode.py lines 122-161).  It INSERTs the new mapping (dated `now`,
in unix seconds), then if `COUNT("dm_id")` exceeds 200 it runs

  DELETE FROM msg_id_mappings WHERE entry_id NOT IN
    (SELECT entry_id FROM msg_id_mappings WHERE insertion_date <= yesterday)

with `yesterday = now - 1 day`, i.e. it keeps exactly the rows whose
`entry_id` appears in the set of rows at least 24 hours old, deleting
every row newer than 24 hours. -/
def cache_message_id_mappings (now : Int) (dm_msg_id server_msg_id : Int)
    (db : MsgDb) : MsgDb :=
  let inserted : MsgDb :=
    { rows := db.rows ++ [{ entry_id := db.next_entry_id, dm_id := dm_msg_id,
                            server_id := server_msg_id, insertion_date := now }],
      next_entry_id := db.next_entry_id + 1 }
  let dm_to_server_count := inserted.rows.length
  if dm_to_server_count > 200 then
    let yesterday_unix := now - 86400
    let keep_ids :=
      (inserted.rows.filter (fun r => r.insertion_date ≤ yesterday_unix)).map
        (fun r => r.entry_id)
    { inserted with rows := inserted.rows.filter (fun r => keep_ids.contains r.entry_id) }
  else
    inserted

/-- Python exceptions that `_retrieve_message_id_mapping_for` can raise. -/
inductive PyError where
  | valueError (msg : String)
  | programmingError (msg : String)
deriving DecidableEq

/-- The `parameters` argument of `sqlite3.Cursor.execute`: the source
passes either a bare Python value (`cur.execute(sql, dm_msg_id)`) or a
tuple (`cur.execute(sql, (a, b, c))`). -/
inductive ExecuteParams where
  | bare (value : Int)
  | tuple1 (value : Int)
deriving DecidableEq

/-- Parameter binding of `sqlite3.Cursor.execute` for a statement with a
single `?` placeholder.  sqlite3 requires `parameters` to be a sequence
or dict; binding a bare int raises
`sqlite3.ProgrammingError: parameters are of unsupported type`
(verified against CPython 3.11's sqlite3). -/
def bind_execute_params : ExecuteParams → Except PyError Int
  | .bare _ => .error (.programmingError "parameters are of unsupported type")
  | .tuple1 v => .ok v

/-- Embeds `DiscordDMGuildManager._retrieve_message_id_mapping_for`
(dm_mode.py lines 164-193).  Raises ValueError when both keys are given;
otherwise runs `SELECT ... WHERE "dm_id" = ?` (resp. `"server_id"`),
passing the key as `cur.execute(sql, dm_msg_id)` — a bare value, not a
one-element tuple — then takes `.fetchall()[0][0]`, returning None when
the IndexError of an empty result list is caught.  With both keys absent
the `try` body falls through and the function returns None. -/
def retrieve_message_id_mapping_for (db : MsgDb)
    (dm_msg_id server_msg_id : Option Int) : Except PyError (Option Int) :=
  if dm_msg_id.isSome && server_msg_id.isSome then
    .error (.valueError "Both dm_msg_id and server_msg_id specified")
  else
    match dm_msg_id with
    | some key =>
      match bind_execute_params (.bare key) with
      | .error e => .error e
      | .ok k =>
        match (db.rows.filter (fun r => r.dm_id == k)).map (fun r => r.server_id) with
        | v :: _ => .ok (some v)
        | [] => .ok none
    | none =>
      match server_msg_id with
      | some key =>
        match bind_execute_params (.bare key) with
        | .error e => .error e
        | .ok k =>
          match (db.rows.filter (fun r => r.server_id == k)).map (fun r => r.dm_id) with
          | v :: _ => .ok (some v)
          | [] => .ok none
      | none => .ok none

/-- A lookup as `_retrieve_message_id_mapping_for` plainly intends it
(key bound as a one-element tuple).  Used to show the round-trip the
spec describes holds once the binding slip is repaired. -/
def retrieve_mapping_tuple_bound (db : MsgDb)
    (dm_msg_id server_msg_id : Option Int) : Except PyError (Option Int) :=
  if dm_msg_id.isSome && server_msg_id.isSome then
    .error (.valueError "Both dm_msg_id and server_msg_id specified")
  else
    match dm_msg_id with
    | some key =>
      match bind_execute_params (.tuple1 key) with
      | .error e => .error e
      | .ok k =>
        match (db.rows.filter (fun r => r.dm_id == k)).map (fun r => r.server_id) with
        | v :: _ => .ok (some v)
        | [] => .ok none
    | none =>
      match server_msg_id with
      | some key =>
        match bind_execute_params (.tuple1 key) with
        | .error e => .error e
        | .ok k =>
          match (db.rows.filter (fun r => r.server_id == k)).map (fun r => r.dm_id) with
          | v :: _ => .ok (some v)
          | [] => .ok none
      | none => .ok none

/-- A table of 200 rows all inserted at unix time 0 (far older than 24
hours relative to the eviction time used below). -/
def staleDb : MsgDb :=
  { rows := (List.range 200).map (fun i =>
      { entry_id := i, dm_id := Int.ofNat i, server_id := Int.ofNat (i + 1000),
        insertion_date := 0 }),
    next_entry_id := 200 }

/-- An empty `msg_id_mappings` table. -/
def emptyDb : MsgDb := { rows := [], next_entry_id := 0 }

set_option maxRecDepth 100000 in
/-- C1: claimed — eviction after a triggering put deletes exactly the rows
older than 24 hours and preserves every row at most 24 hours old; for 200
stale rows plus the freshly put row, the fresh row should be the survivor.
The code does the opposite: the DELETE keeps rows whose entry_id is in
the set of rows at least 24 hours old and deletes every newer row, so
after the triggering put at time 1000000 the just-inserted fresh row is
gone and all 200 stale rows survive, contradicting the code's own
comment "Delete the cache for anything older than 24 hours ago." -/
theorem C1_eviction_deletes_fresh_keeps_stale :
    (cache_message_id_mappings 1000000 7777 8888 staleDb).rows = staleDb.rows ∧
    (cache_message_id_mappings 1000000 7777 8888 staleDb).rows.length = 200 := by
  constructor
  · rfl
  · rfl

/-- C2: claimed — after put(a, b), a lookup by a returns b and a lookup by
b returns a.  The code instead raises
`sqlite3.ProgrammingError: parameters are of unsupported type` in both
directions, because the SELECT passes its key as `cur.execute(sql, key)`
(a bare int) instead of a one-element tuple. -/
theorem C2_lookup_raises_after_put :
    retrieve_message_id_mapping_for (cache_message_id_mappings 1000 1 2 emptyDb) (some 1) none
      = .error (.programmingError "parameters are of unsupported type") ∧
    retrieve_message_id_mapping_for (cache_message_id_mappings 1000 1 2 emptyDb) none (some 2)
      = .error (.programmingError "parameters are of unsupported type") := by
  constructor
  · rfl
  · rfl

/-- With the key bound as a one-element tuple (the evident intent of the
source), the round-trip the spec describes does hold: put(a, b) then
lookup by a gives b and lookup by b gives a. -/
theorem retrieve_tuple_bound_round_trip (now a b : Int) :
    retrieve_mapping_tuple_bound (cache_message_id_mappings now a b emptyDb) (some a) none
      = .ok (some b) ∧
    retrieve_mapping_tuple_bound (cache_message_id_mappings now a b emptyDb) none (some b)
      = .ok (some a) := by
  constructor <;>
    simp [retrieve_mapping_tuple_bound, cache_message_id_mappings, bind_execute_params, emptyDb]

/-- C6: claimed — a lookup with a key that has no stored mapping returns
None and raises nothing.  The code raises
`sqlite3.ProgrammingError: parameters are of unsupported type` before the
query even runs, for the same bare-parameter reason as the put/GET
round-trip; the IndexError-to-None path is unreachable for int keys. -/
theorem C6_unknown_key_lookup_raises :
    retrieve_message_id_mapping_for emptyDb (some 5) none
      = .error (.programmingError "parameters are of unsupported type") ∧
    retrieve_message_id_mapping_for emptyDb none (some 5)
      = .error (.programmingError "parameters are of unsupported type") := by
  constructor
  · rfl
  · rfl

/-- C10: confirmed — a lookup with both the dm-side key and the
server-side key raises
`ValueError("Both dm_msg_id and server_msg_id specified")`, whatever the
table contents (the guard runs before any cursor work touches the
store). -/
theorem C10_both_keys_raise_value_error (db : MsgDb) (a b : Int) :
    retrieve_message_id_mapping_for db (some a) (some b)
      = .error (.valueError "Both dm_msg_id and server_msg_id specified") := by
  rfl

/- ---------------------------------------------------------------------
Telegram entity-shift logic (src/seance/telegram_bot.py).
--------------------------------------------------------------------- -/

/-- Whitespace as recognised by Python `str.strip()` (ASCII fragment;
Python also strips further Unicode space characters, none of which occur
in the inputs considered here). -/
def py_isspace (c : Char) : Bool :=
  c == ' ' || c == '\t' || c == '\n' || c == '\r' || c == '\x0b' || c == '\x0c'

/-- Python `str.strip()`: remove leading and trailing whitespace. -/
def py_strip (s : String) : String :=
  ⟨((s.data.dropWhile py_isspace).reverse.dropWhile py_isspace).reverse⟩

/-- The number of leading whitespace characters `str.strip()` removes
from `s` (the spec's `trimmedLeadingChars`). -/
def leading_ws_count (s : String) : Nat :=
  s.length - (s.data.dropWhile py_isspace).length

/-- Embeds the `entity_shift` computation of `SeanceClient.on_message`
(telegram_bot.py lines 62-71): starting from
`offset_to_content = matches.start('content')`, if the captured content
is non-empty the code strips it and adds
`len(content) - len(content.strip())` — the TOTAL number of stripped
characters, leading and trailing together — to the shift. -/
def on_message_entity_shift (content : String) (offset_to_content : Nat) : Nat :=
  if content.length ≠ 0 then
    let pre_strip_len := content.length
    let post_strip_len := (py_strip content).length
    offset_to_content + (pre_strip_len - post_strip_len)
  else
    offset_to_content

/-- One Telegram `MessageEntity`: an index-based rich-text span of the
original message.  `kind` stands for the entity type tag, which the
adjustment never inspects. -/
structure MessageEntity where
  offset : Int
  length : Nat
  kind : Nat
deriving DecidableEq

/-- Embeds the entity-adjustment loop of `SeanceClient.proxy`
(telegram_bot.py lines 39-41):
`for entity in entities: entity.offset -= entity_shift`.
Every entity is kept; nothing is dropped or clamped. -/
def proxy_adjust_entities (entity_shift : Int) : List MessageEntity → List MessageEntity
  | [] => []
  | e :: rest => { e with offset := e.offset - entity_shift } :: proxy_adjust_entities entity_shift rest

/-- C3: claimed — the shift equals the content start offset plus only the
LEADING whitespace trimmed, with trailing trimmed characters contributing
nothing.  Counter-evaluation: captured content " hi " (one leading and
one trailing space) starting at offset 1.  The claim prescribes shift
1 + 1 = 2, but the code computes 1 + (4 - 2) = 3, counting the trailing
space as well — contradicting its own comment, which says to shift the
indices "by however much we changed the start of the content" (the
trailing strip does not change the start). -/
theorem C3_shift_counts_trailing_whitespace :
    on_message_entity_shift " hi " 1 = 3 ∧ 1 + leading_ws_count " hi " = 2 := by
  constructor
  · rfl
  · rfl

/-- C4 counterexample: the claim says a span whose adjusted offset is
negative is absent from the adjusted result.  For the single span at
offset 0 with shift 2 the adjusted offset is -2, yet the span is still
present (merely shifted), so the claim is false. -/
theorem C4_negative_span_not_dropped :
    proxy_adjust_entities 2 [{ offset := 0, length := 2, kind := 0 }]
      = [{ offset := -2, length := 2, kind := 0 }] ∧
    (proxy_adjust_entities 2 [{ offset := 0, length := 2, kind := 0 }]).any
      (fun e => decide (e.offset < 0)) = true := by
  constructor
  · rfl
  · rfl

/-- The adjustment loop preserves the number of spans. -/
theorem proxy_adjust_entities_length (shift : Int) (es : List MessageEntity) :
    (proxy_adjust_entities shift es).length = es.length := by
  induction es with
  | nil => rfl
  | cons x xs ih => simp [proxy_adjust_entities, ih]

/-- Every input span reappears in the adjusted list, offset decreased by
the shift. -/
theorem proxy_adjust_entities_mem (shift : Int) :
    ∀ (es : List MessageEntity) (e : MessageEntity), e ∈ es →
      { e with offset := e.offset - shift } ∈ proxy_adjust_entities shift es := by
  intro es
  induction es with
  | nil => intro e h; cases h
  | cons x xs ih =>
    intro e h
    rcases List.mem_cons.mp h with rfl | hx
    · simp [proxy_adjust_entities]
    · simp only [proxy_adjust_entities, List.mem_cons]
      exact Or.inr (ih e hx)

/-- C4 amended: no span is ever dropped (or clamped): the adjusted list
has exactly one span per input span, and each input span reappears with
its offset decreased by the shift — even when that adjusted offset is
negative. -/
theorem C4_every_span_kept_shifted (shift : Int) (es : List MessageEntity)
    (e : MessageEntity) (h : e ∈ es) :
    (proxy_adjust_entities shift es).length = es.length ∧
    { e with offset := e.offset - shift } ∈ proxy_adjust_entities shift es :=
  ⟨proxy_adjust_entities_length shift es, proxy_adjust_entities_mem shift es e h⟩

/-- Witness for C4_every_span_kept_shifted at shift 2 on the one-element
span list used in the counterexample of record. -/
theorem C4_every_span_kept_shifted_witness :
    (proxy_adjust_entities 2 [{ offset := 0, length := 5, kind := 1 }]).length
      = [({ offset := 0, length := 5, kind := 1 } : MessageEntity)].length ∧
    ({ offset := 0 - 2, length := 5, kind := 1 } : MessageEntity)
      ∈ proxy_adjust_entities 2 [{ offset := 0, length := 5, kind := 1 }] :=
  C4_every_span_kept_shifted 2 [{ offset := 0, length := 5, kind := 1 }]
    { offset := 0, length := 5, kind := 1 } (List.mem_singleton.mpr rfl)

/- ---------------------------------------------------------------------
Python string helpers used by the Discord target resolver
(src/seance/discord_bot/__init__.py).  Python string indices are code
points, as are Lean `Char`s in `String.data`, so positions line up.
--------------------------------------------------------------------- -/

/-- Scan of Python `str.find`: the least index at or after the current
position where `pat` occurs, or -1.  `i` tracks the absolute index of
the head of the remaining list. -/
def find_sub_aux (pat : List Char) : List Char → Nat → Int
  | [], i => if pat.isEmpty then (i : Int) else -1
  | c :: rest, i =>
    if (c :: rest).take pat.length == pat then (i : Int)
    else find_sub_aux pat rest (i + 1)

/-- Python `s.find(sub, start)`: -1 when `start` lies beyond the string,
else the least occurrence index at or after `start`. -/
def py_str_find_from (s sub : String) (start : Nat) : Int :=
  if s.data.length < start then -1
  else find_sub_aux sub.data (s.data.drop start) start

/-- Python `s.find(sub)`. -/
def py_find (s sub : String) : Int := py_str_find_from s sub 0

/-- Resolution of one Python slice endpoint against a string of length
`len`: negative indices count from the end (clamped at 0), positive ones
are clamped at `len`. -/
def py_slice_idx (len : Nat) (i : Int) : Nat :=
  if i < 0 then ((len : Int) + i).toNat else min i.toNat len

/-- Python `s[a:b]` (step 1), including the negative-index semantics the
resolver relies on: `content[start:-1]` drops the final character when
`find` returned -1. -/
def py_slice (s : String) (a b : Int) : String :=
  ⟨(s.data.take (py_slice_idx s.data.length b)).drop (py_slice_idx s.data.length a)⟩

/-- Tail of a Python int literal body: digits with single underscores
allowed between digits. -/
def py_digit_group_tail : List Char → Bool
  | [] => true
  | '_' :: c :: rest => c.isDigit && py_digit_group_tail rest
  | c :: rest => c.isDigit && py_digit_group_tail rest

/-- A valid Python int digit sequence: non-empty, starts with a digit,
underscores only between digits. -/
def py_int_digits_valid : List Char → Bool
  | [] => false
  | c :: rest => c.isDigit && py_digit_group_tail rest

/-- Numeric value of a digit sequence, skipping underscores. -/
def py_digits_value (l : List Char) : Nat :=
  l.foldl (fun acc c => if c == '_' then acc else acc * 10 + (c.toNat - '0'.toNat)) 0

/-- Python `int(s)` on a string: strip whitespace, optional sign, then a
digit sequence; None models the ValueError on anything else.  (ASCII
digits; Python also accepts Unicode decimal digits, which do not arise
here.) -/
def py_int_parse (s : String) : Option Int :=
  let t := ((s.data.dropWhile py_isspace).reverse.dropWhile py_isspace).reverse
  match t with
  | '+' :: rest =>
    if py_int_digits_valid rest then some (Int.ofNat (py_digits_value rest)) else none
  | '-' :: rest =>
    if py_int_digits_valid rest then some (-(Int.ofNat (py_digits_value rest))) else none
  | rest =>
    if py_int_digits_valid rest then some (Int.ofNat (py_digits_value rest)) else none

/- ---------------------------------------------------------------------
Target resolver (SeanceClient._get_target_message_and_args,
src/seance/discord_bot/__init__.py lines 184-251).

External Discord I/O is modelled by oracles in `ResolveEnv`:
`fetch_same_channel` is `channel.get_partial_message` plus
`_refetch_message` (None models the caught HTTPException),
`url_match` is `DISCORD_MESSAGE_URL_PATTERN.match(arg)` returning the
two captured groups (None models a failed match, whose `.group` call
raises the caught AttributeError), `fetch_cross` is `fetch_channel`
plus `_refetch_message`, and `history` is `channel.history(limit=5)`
in iteration order (most recent first).  Every exception the source
catches is thereby a None branch, so the model is a total function.
--------------------------------------------------------------------- -/

/-- A Discord message as the resolver sees it. -/
structure DiscordMessage where
  id : Nat
  author_id : Nat
  content : String
deriving DecidableEq

/-- The external collaborators of the resolver. -/
structure ResolveEnv where
  self_user_id : Nat
  fetch_same_channel : Int → Option DiscordMessage
  url_match : String → Option (String × String)
  fetch_cross : String → String → Option DiscordMessage
  history : List DiscordMessage

/-- `message.content[(message.content.find(command_terminator) + 1):]`,
the remaining-arguments expression of the reply tier (line 203) and the
history tier (line 249). -/
def content_after_terminator (content command_terminator : String) : String :=
  py_slice content (py_find content command_terminator + 1) (content.length : Int)

/-- The history-scan tier (lines 242-251): disabled scanning or an
exhausted scan returns (None, None); otherwise the first message in
history order authored by the bot itself is the target. -/
def history_tier (env : ResolveEnv) (message : DiscordMessage)
    (command_terminator : String) (use_history : Bool) :
    Option DiscordMessage × Option String :=
  if use_history then
    match env.history.find? (fun msg => msg.author_id == env.self_user_id) with
    | some msg => (some msg, some (content_after_terminator message.content command_terminator))
    | none => (none, none)
  else
    (none, none)

/-- The deep-link tier (lines 227-240): match the URL pattern against
the same token; on match, fetch across channels; any failure falls
through to the history tier. -/
def deep_link_tier (env : ResolveEnv) (message : DiscordMessage)
    (arg rest command_terminator : String) (use_history : Bool) :
    Option DiscordMessage × Option String :=
  match env.url_match arg with
  | some (channel_id, msg_id) =>
    match env.fetch_cross channel_id msg_id with
    | some target => (some target, some rest)
    | none => history_tier env message command_terminator use_history
  | none => history_tier env message command_terminator use_history

/-- The explicit-ID tier (lines 215-226): parse the token as an int and
fetch in the same channel; a ValueError from `int` or an HTTPException
from the fetch falls through to the deep-link tier. -/
def id_tier (env : ResolveEnv) (message : DiscordMessage)
    (arg rest command_terminator : String) (use_history : Bool) :
    Option DiscordMessage × Option String :=
  match py_int_parse arg with
  | some msg_id =>
    match env.fetch_same_channel msg_id with
    | some target => (some target, some rest)
    | none => deep_link_tier env message arg rest command_terminator use_history
  | none => deep_link_tier env message arg rest command_terminator use_history

/-- The token and rest-of-content extraction of lines 210-213 and 224:
`start = content.find(term) + 1`, `stop = content.find(' ', start)`,
token `content[start:stop]`, rest `content[(stop + 1):]` — with
Python's negative-index slicing when a find returns -1. -/
def parse_invocation (message : DiscordMessage) (command_terminator : String) :
    String × String :=
  let start : Nat := (py_find message.content command_terminator + 1).toNat
  let stop : Int := py_str_find_from message.content " " start
  (py_slice message.content (start : Int) stop,
   py_slice message.content (stop + 1) (message.content.length : Int))

/-- Embeds `SeanceClient._get_target_message_and_args`: the reply tier
short-circuits everything else; without a reply the ID, deep-link and
history tiers run in order. -/
def get_target_message_and_args (env : ResolveEnv) (message : DiscordMessage) :
    Option DiscordMessage → String → Bool → Option DiscordMessage × Option String
  | some resolved, command_terminator, _ =>
    (some resolved, some (content_after_terminator message.content command_terminator))
  | none, command_terminator, use_history =>
    id_tier env message (parse_invocation message command_terminator).1
      (parse_invocation message command_terminator).2 command_terminator use_history

/-- `sub` occurs in `s` at (code-point) index `i`. -/
def OccursAt (s sub : String) (i : Nat) : Prop :=
  (s.data.drop i).take sub.data.length = sub.data

instance (s sub : String) (i : Nat) : Decidable (OccursAt s sub i) := by
  unfold OccursAt
  infer_instance

/-- Correctness of the `str.find` scan: if `pat` occurs at position `k`
of `l` and nowhere earlier, the scan started at absolute index `i`
answers `i + k`. -/
theorem find_sub_aux_spec (pat : List Char) :
    ∀ (l : List Char) (i k : Nat),
      (l.drop k).take pat.length = pat →
      (∀ j, j < k → (l.drop j).take pat.length ≠ pat) →
      find_sub_aux pat l i = ((i + k : Nat) : Int) := by
  intro l
  induction l with
  | nil =>
    intro i k hocc hmin
    have hpat : pat = [] := by simpa using hocc.symm
    have hk : k = 0 := by
      by_contra hne
      exact hmin 0 (Nat.pos_of_ne_zero hne) (by simp [hpat])
    subst hk
    simp [find_sub_aux, hpat]
  | cons c rest ih =>
    intro i k hocc hmin
    cases k with
    | zero =>
      rw [List.drop_zero] at hocc
      simp [find_sub_aux, hocc]
    | succ k =>
      have h0 : ¬ (List.take pat.length (c :: rest) = pat) := by
        have := hmin 0 (Nat.succ_pos k)
        simpa using this
      have hcond : ((c :: rest).take pat.length == pat) = false :=
        beq_eq_false_iff_ne.mpr h0
      have hocc2 : (rest.drop k).take pat.length = pat := by
        simpa [List.drop_succ_cons] using hocc
      have hmin2 : ∀ j, j < k → (rest.drop j).take pat.length ≠ pat := by
        intro j hj
        have := hmin (j + 1) (Nat.succ_lt_succ hj)
        simpa [List.drop_succ_cons] using this
      have hrec := ih (i + 1) k hocc2 hmin2
      simp only [find_sub_aux, hcond]
      simp only [Bool.false_eq_true, if_false]
      rw [hrec]
      congr 1
      omega

/-- `py_find` returns the first occurrence index. -/
theorem py_find_first (s sub : String) (k : Nat)
    (h1 : OccursAt s sub k) (h2 : ∀ j, j < k → ¬ OccursAt s sub j) :
    py_find s sub = (k : Int) := by
  simp only [OccursAt] at h1 h2
  unfold py_find py_str_find_from
  rw [if_neg (Nat.not_lt_zero _), List.drop_zero]
  have := find_sub_aux_spec sub.data s.data 0 k h1 h2
  simpa using this

/-- With the terminator first occurring at index `k`, the
rest-of-content expression is everything after index `k`. -/
theorem content_after_terminator_eq (content term : String) (k : Nat)
    (h1 : OccursAt content term k) (h2 : ∀ j, j < k → ¬ OccursAt content term j) :
    content_after_terminator content term = ⟨content.data.drop (k + 1)⟩ := by
  have hfind := py_find_first content term k h1 h2
  unfold content_after_terminator py_slice
  rw [hfind]
  have hlen : content.length = content.data.length := rfl
  have ha : py_slice_idx content.data.length ((k : Int) + 1) = min (k + 1) content.data.length := by
    unfold py_slice_idx
    rw [if_neg (by omega)]
    have h' : ((k : Int) + 1).toNat = k + 1 := by omega
    rw [h']
  have hb : py_slice_idx content.data.length ((content.length : Nat) : Int) = content.data.length := by
    unfold py_slice_idx
    rw [if_neg (by omega)]
    rw [hlen]
    have h' : ((content.data.length : Nat) : Int).toNat = content.data.length := by omega
    rw [h', Nat.min_self]
  rw [ha, hb, List.take_length]
  rcases Nat.le_total (k + 1) content.data.length with h | h
  · rw [Nat.min_eq_left h]
  · rw [Nat.min_eq_right h]
    congr 1
    rw [List.drop_length]
    exact (List.drop_eq_nil_of_le h).symm

/-- C5: confirmed — an invocation carrying a reply reference always
resolves to the replied-to message, whatever else the text contains
(this theorem holds for every message content, in particular content
that also carries a parseable integer ID or a deep link), and the
remaining arguments are everything after the first occurrence of the
command terminator (index `k` here). -/
theorem C5_reply_reference_always_wins (env : ResolveEnv)
    (message target : DiscordMessage) (term : String) (use_history : Bool) (k : Nat)
    (h1 : OccursAt message.content term k)
    (h2 : ∀ j, j < k → ¬ OccursAt message.content term j) :
    get_target_message_and_args env message (some target) term use_history
      = (some target, some ⟨message.content.data.drop (k + 1)⟩) := by
  show (some target, some (content_after_terminator message.content term))
      = (some target, some ⟨message.content.data.drop (k + 1)⟩)
  rw [content_after_terminator_eq message.content term k h1 h2]

/-- An environment in which every external fetch fails, the URL pattern
never matches, and history is empty. -/
def env0 : ResolveEnv :=
  { self_user_id := 99,
    fetch_same_channel := fun _ => none,
    url_match := fun _ => none,
    fetch_cross := fun _ _ => none,
    history := [] }

/-- A replied-to message. -/
def reply_target : DiscordMessage := { id := 10, author_id := 99, content := "hello" }

/-- An invocation whose text also contains the parseable ID 1234. -/
def reply_invocation : DiscordMessage := { id := 11, author_id := 5, content := "!edit 1234 abc" }

/-- Witness for C5 at a concrete reply-bearing invocation whose text
also contains a parseable ID; the terminator " " first occurs at
index 5 and the remaining arguments are "1234 abc". -/
theorem C5_reply_reference_always_wins_witness :
    get_target_message_and_args env0 reply_invocation (some reply_target) " " true
      = (some reply_target, some ⟨reply_invocation.content.data.drop 6⟩) :=
  C5_reply_reference_always_wins env0 reply_invocation reply_target " " true 5
    (by decide) (by decide)

/-- C7: confirmed — with no reply, whenever the first token fails to
parse as an int, or parses but the same-channel fetch fails (the
`Option.all` hypothesis covers both), the resolver falls through to the
deep-link tier; if that tier fails too (URL mismatch, or cross-channel
fetch failure) it falls to the history tier; the history tier returns
(None, None) when scanning is disabled or nothing qualifies.  The model
is a total function — every exception the source can see on this path
(ValueError, HTTPException, AttributeError, IndexError) is caught, so no
user-facing error is raised. -/
theorem C7_bad_id_falls_through_without_error (env : ResolveEnv)
    (message : DiscordMessage) (term : String) (use_history : Bool)
    (hid : Option.all (fun n => (env.fetch_same_channel n).isNone)
      (py_int_parse (parse_invocation message term).1) = true) :
    get_target_message_and_args env message none term use_history
      = deep_link_tier env message (parse_invocation message term).1
          (parse_invocation message term).2 term use_history
    ∧ (Option.all (fun p => (env.fetch_cross p.1 p.2).isNone)
        (env.url_match (parse_invocation message term).1) = true →
        get_target_message_and_args env message none term use_history
          = history_tier env message term use_history)
    ∧ (use_history = false → history_tier env message term use_history = (none, none))
    ∧ (env.history.find? (fun m => m.author_id == env.self_user_id) = none →
        history_tier env message term use_history = (none, none)) := by
  have hfirst : get_target_message_and_args env message none term use_history
      = deep_link_tier env message (parse_invocation message term).1
          (parse_invocation message term).2 term use_history := by
    show id_tier env message (parse_invocation message term).1
        (parse_invocation message term).2 term use_history = _
    unfold id_tier
    cases hp : py_int_parse (parse_invocation message term).1 with
    | none => rfl
    | some n =>
      rw [hp] at hid
      have h2 : (env.fetch_same_channel n).isNone = true := by
        simpa [Option.all] using hid
      simp [Option.isNone_iff_eq_none.mp h2]
  refine ⟨hfirst, ?_, ?_, ?_⟩
  · intro hlink
    rw [hfirst]
    unfold deep_link_tier
    cases hu : env.url_match (parse_invocation message term).1 with
    | none => rfl
    | some p =>
      rw [hu] at hlink
      obtain ⟨c, m⟩ := p
      have h2 : (env.fetch_cross c m).isNone = true := by
        simpa [Option.all] using hlink
      simp [Option.isNone_iff_eq_none.mp h2]
  · intro h
    subst h
    rfl
  · intro hnone
    unfold history_tier
    cases use_history with
    | false => rfl
    | true =>
      simp [hnone]

/-- A reply-less invocation whose first token "notanid" is not an int. -/
def bad_id_invocation : DiscordMessage := { id := 12, author_id := 5, content := "!edit notanid x" }

/-- Witness for C7 in the all-failing environment `env0` on a token that
parses as no int: the resolver reaches the deep-link tier, then the
history tier, and ends at (None, None). -/
theorem C7_bad_id_falls_through_without_error_witness :
    (get_target_message_and_args env0 bad_id_invocation none " " true
      = deep_link_tier env0 bad_id_invocation (parse_invocation bad_id_invocation " ").1
          (parse_invocation bad_id_invocation " ").2 " " true)
    ∧ (Option.all (fun p => (env0.fetch_cross p.1 p.2).isNone)
        (env0.url_match (parse_invocation bad_id_invocation " ").1) = true →
        get_target_message_and_args env0 bad_id_invocation none " " true
          = history_tier env0 bad_id_invocation " " true)
    ∧ (true = false → history_tier env0 bad_id_invocation " " true = (none, none))
    ∧ (env0.history.find? (fun m => m.author_id == env0.self_user_id) = none →
        history_tier env0 bad_id_invocation " " true = (none, none)) :=
  C7_bad_id_falls_through_without_error env0 bad_id_invocation " " true (by decide)

/- ---------------------------------------------------------------------
Command and shortcut classifier
(SeanceClient._matches_simple_react, _matches_custom_react,
_handle_content; src/seance/discord_bot/__init__.py).
--------------------------------------------------------------------- -/

/-- Python regex `\w` (ASCII fragment: letters, digits, underscore;
Python also matches further Unicode word characters, none of which
appear in the shortcut shapes considered here). -/
def py_word_char (c : Char) : Bool :=
  c.isAlphanum || c == '_'

/-- The part of DISCORD_REACTION_SHORTCUT_PATTERN after the optional
`a` and first `:` — greedy `\w{2,}`, `:`, `\d+`, closing `>`, end of
string.  The boundaries are forced because `:` and `>` are not word
characters and `>` is not a digit, so the greedy scan is exact. -/
def custom_react_body (l : List Char) : Bool :=
  let ws := l.takeWhile py_word_char
  let rest := l.dropWhile py_word_char
  decide (2 ≤ ws.length) &&
    (match rest with
     | ':' :: ds =>
       let digs := ds.takeWhile Char.isDigit
       let rest2 := ds.dropWhile Char.isDigit
       decide (1 ≤ digs.length) && (rest2 == ['>'])
     | _ => false)

/-- Embeds `SeanceClient._matches_custom_react` (lines 125-129):
`DISCORD_REACTION_SHORTCUT_PATTERN.fullmatch(content)` for the pattern
`(?P<action>[+-])\<a?:\w{2,}:(?P<id>\d+)\>`.  The optional `a` is
deterministic: after it a `:` must follow and `a` is not `:`. -/
def matches_custom_react (content : String) : Bool :=
  match content.data with
  | a :: '<' :: rest =>
    (a == '+' || a == '-') &&
    (match rest with
     | 'a' :: ':' :: tail => custom_react_body tail
     | ':' :: tail => custom_react_body tail
     | _ => false)
  | _ => false

/-- Embeds `SeanceClient._matches_simple_react` (lines 117-122):
`len(content) > 1 and content[0] in "+-" and is_emoji(content[1:])`;
a string of length at most 1 is never a simple shortcut.  `is_emoji`
(from the external `emoji` package) is passed in as an oracle. -/
def matches_simple_react (is_emoji : String → Bool) (content : String) : Bool :=
  match content.data with
  | c0 :: c1 :: rest => (c0 == '+' || c0 == '-') && is_emoji ⟨c1 :: rest⟩
  | _ => false

/-- `content[0] == '+'`, the `adding` flag handed to the reaction
handlers (lines 615 and 639). -/
def first_char_is_plus (s : String) : Bool :=
  match s.data with
  | c :: _ => c == '+'
  | [] => false

/-- What `_handle_content` decides to do with a piece of extracted
content. -/
inductive ContentAction where
  | simpleReaction (adding : Bool)
  | customReaction (adding : Bool)
  | proxyMessage (content : String)
deriving DecidableEq

/-- Embeds the dispatch of `SeanceClient._handle_content`
(lines 254-266): strip the content if non-empty, then try the shortcut
checks in the insertion order of `shortcut_handlers`
(`_matches_simple_react` first, `_matches_custom_react` second), and
default to proxying. -/
def handle_content_classify (is_emoji : String → Bool) (content : String) : ContentAction :=
  let c := if content.length ≠ 0 then py_strip content else content
  if matches_simple_react is_emoji c then ContentAction.simpleReaction (first_char_is_plus c)
  else if matches_custom_react c then ContentAction.customReaction (first_char_is_plus c)
  else ContentAction.proxyMessage c

/-- On content that stripping leaves unchanged, the classifier is the
plain three-way test chain. -/
theorem handle_content_classify_of_strip_id (is_emoji : String → Bool)
    (c : String) (hstrip : py_strip c = c) :
    handle_content_classify is_emoji c =
      (if matches_simple_react is_emoji c then ContentAction.simpleReaction (first_char_is_plus c)
       else if matches_custom_react c then ContentAction.customReaction (first_char_is_plus c)
       else ContentAction.proxyMessage c) := by
  have hsel : (if c.length ≠ 0 then py_strip c else c) = c := by
    by_cases h : c.length ≠ 0
    · rw [if_pos h, hstrip]
    · rw [if_neg h]
  simp only [handle_content_classify, hsel]

/-- C8: confirmed — post-trim content of length ≥ 2 whose first
character is '+' or '-' and whose remainder the emoji test accepts
classifies as a simple reaction shortcut with adding = (first char is
'+'); the one-character strings "+" and "-" are not shortcuts and fall
through to plain proxying; the simple test runs before the custom test
(whenever it matches, the outcome is the simple shortcut); and content
matching neither test is proxied unchanged. -/
theorem C8_shortcut_classification (is_emoji : String → Bool) (c : String)
    (hstrip : py_strip c = c) :
    (∀ c0 c1 rest, c.data = c0 :: c1 :: rest → (c0 = '+' ∨ c0 = '-') →
        is_emoji ⟨c1 :: rest⟩ = true →
        handle_content_classify is_emoji c = ContentAction.simpleReaction (c0 == '+'))
    ∧ handle_content_classify is_emoji "+" = ContentAction.proxyMessage "+"
    ∧ handle_content_classify is_emoji "-" = ContentAction.proxyMessage "-"
    ∧ (matches_simple_react is_emoji c = true →
        handle_content_classify is_emoji c = ContentAction.simpleReaction (first_char_is_plus c))
    ∧ (matches_simple_react is_emoji c = false → matches_custom_react c = false →
        handle_content_classify is_emoji c = ContentAction.proxyMessage c) := by
  have hcl := handle_content_classify_of_strip_id is_emoji c hstrip
  refine ⟨?_, ?_, ?_, ?_, ?_⟩
  · intro c0 c1 rest hdata hsign hemoji
    have hsimple : matches_simple_react is_emoji c = true := by
      unfold matches_simple_react
      rw [hdata]
      rcases hsign with rfl | rfl <;> simp [hemoji]
    rw [hcl, if_pos hsimple]
    have hfc : first_char_is_plus c = (c0 == '+') := by
      unfold first_char_is_plus
      rw [hdata]
    rw [hfc]
  · rfl
  · rfl
  · intro hsimple
    rw [hcl, if_pos hsimple]
  · intro hs hc
    rw [hcl]
    simp [hs, hc]

/-- The emoji oracle accepting exactly the grinning-face emoji, for the
concrete scenario of the spec. -/
def emoji_grinning : String → Bool := fun s => s == "😀"

/-- Witness for C8 on the spec's scenario input: "+😀" classifies as a
simple reaction shortcut with adding = true. -/
theorem C8_shortcut_classification_witness :
    handle_content_classify emoji_grinning "+😀"
      = ContentAction.simpleReaction ('+' == '+') :=
  (C8_shortcut_classification emoji_grinning "+😀" (by decide)).1 '+' '😀' []
    (by decide) (Or.inl rfl) (by decide)

/- ---------------------------------------------------------------------
Effect trace of SeanceClient._handle_content (lines 254-278).
--------------------------------------------------------------------- -/

/-- The observable actions `_handle_content` performs: attempting the
proxy send, attempting the delete of the original message, attempting a
reaction, and writing a log line (`print` to stderr). -/
inductive BotAction where
  | proxySendAttempt
  | deleteOriginalAttempt
  | reactionAttempt (adding : Bool)
  | logLine (msg : String)
deriving DecidableEq

/-- The trailing delete of `_handle_content` (lines 274-278): one
attempt; on HTTPException a log line, no retry. -/
def delete_original_trace (delete_fails : Bool) : List BotAction :=
  BotAction.deleteOriginalAttempt ::
    (if delete_fails then [BotAction.logLine "Failed to delete original message"] else [])

/-- Embeds the effect sequence of `_handle_content`: classify, then
shortcut branch (reaction attempt; `_handle_reaction` catches its own
HTTPException and logs, lines 281-294) or proxy branch (proxy attempt;
on HTTPException log and RETURN, lines 268-272, skipping the delete);
both surviving paths end with the single delete attempt.  The booleans
say whether the corresponding external call raises HTTPException. -/
def handle_content_trace (is_emoji : String → Bool) (content : String)
    (proxy_fails react_fails delete_fails : Bool) : List BotAction :=
  match handle_content_classify is_emoji content with
  | ContentAction.simpleReaction adding =>
    (BotAction.reactionAttempt adding ::
      (if react_fails then [BotAction.logLine "Failed to handle reaction"] else []))
      ++ delete_original_trace delete_fails
  | ContentAction.customReaction adding =>
    (BotAction.reactionAttempt adding ::
      (if react_fails then [BotAction.logLine "Failed to handle reaction"] else []))
      ++ delete_original_trace delete_fails
  | ContentAction.proxyMessage _ =>
    if proxy_fails then [BotAction.proxySendAttempt, BotAction.logLine "Failed to proxy message"]
    else BotAction.proxySendAttempt :: delete_original_trace delete_fails

/-- C9: confirmed — for proxied content, a failed proxy send logs and
aborts: the original message's delete is never attempted; a successful
send followed by a failed delete performs exactly one delete attempt
(no retry) and logs the failure. -/
theorem C9_proxy_failure_aborts_delete (is_emoji : String → Bool) (content s : String)
    (proxy_fails react_fails delete_fails : Bool)
    (hcls : handle_content_classify is_emoji content = ContentAction.proxyMessage s) :
    (proxy_fails = true →
      BotAction.deleteOriginalAttempt
          ∉ handle_content_trace is_emoji content proxy_fails react_fails delete_fails
      ∧ handle_content_trace is_emoji content proxy_fails react_fails delete_fails
          = [BotAction.proxySendAttempt, BotAction.logLine "Failed to proxy message"])
    ∧ (proxy_fails = false → delete_fails = true →
      (handle_content_trace is_emoji content proxy_fails react_fails delete_fails).count
          BotAction.deleteOriginalAttempt = 1
      ∧ BotAction.logLine "Failed to delete original message"
          ∈ handle_content_trace is_emoji content proxy_fails react_fails delete_fails) := by
  have htr : handle_content_trace is_emoji content proxy_fails react_fails delete_fails
      = (if proxy_fails then
           [BotAction.proxySendAttempt, BotAction.logLine "Failed to proxy message"]
         else BotAction.proxySendAttempt :: delete_original_trace delete_fails) := by
    unfold handle_content_trace
    rw [hcls]
  constructor
  · intro hp
    subst hp
    rw [htr]
    refine ⟨by simp, rfl⟩
  · intro hp hd
    subst hp
    subst hd
    rw [htr]
    exact ⟨by decide, by decide⟩

/-- Witness for C9 at plain content "hello" (classified as proxyable by
the classifier itself), send succeeding and delete failing. -/
theorem C9_proxy_failure_aborts_delete_witness :
    (false = true →
      BotAction.deleteOriginalAttempt
          ∉ handle_content_trace (fun _ => false) "hello" false false true
      ∧ handle_content_trace (fun _ => false) "hello" false false true
          = [BotAction.proxySendAttempt, BotAction.logLine "Failed to proxy message"])
    ∧ (false = false → true = true →
      (handle_content_trace (fun _ => false) "hello" false false true).count
          BotAction.deleteOriginalAttempt = 1
      ∧ BotAction.logLine "Failed to delete original message"
          ∈ handle_content_trace (fun _ => false) "hello" false false true) :=
  C9_proxy_failure_aborts_delete (fun _ => false) "hello" "hello" false false true rfl
